import Mathlib

/-!
Verification of the metrics-derivation pipeline of the meta-aria-2 surgical
training analyzer.  The definitions below are a shallow embedding of the
numeric core found in `src/analysis/metrics_calculator.py`,
`src/analysis/mps_analyzer.py` and `src/visualization/dashboard_generator.py`.

Modelling conventions:
* Python floats are modelled by `ℚ` where the computation is sqrt-free and by
  `ℝ` where Euclidean norms / standard deviations are taken.
* A pandas statistic that evaluates to NaN (sample std / var / mean of a
  too-short series, `ddof = 1`) is modelled as `Option.none`; numpy's
  `np.std` / `np.var` / `np.mean` (`ddof = 0`) on the non-empty series the
  code guards for are total.
* Dictionaries of optional metrics are modelled by structures whose fields
  are `Option` values; an absent key is `none`.
-/

namespace AriaMetrics

/-! ### Generic list statistics (SignalMath) -/

/-- Mean of a rational series, `np.mean` / `pandas.mean` on a non-empty
series (the sqrt-free cases of the source keep everything rational). -/
def qmean (l : List ℚ) : ℚ := l.sum / l.length

/-- Mean of a real series, `np.mean` on a non-empty series. -/
noncomputable def meanR (l : List ℝ) : ℝ := l.sum / l.length

/-- Mean absolute value of a series, `np.mean(np.abs(s))`. -/
def meanAbs {α : Type} [LinearOrderedField α] (l : List α) : α :=
  (l.map (fun x => |x|)).sum / l.length

/-- Population variance `np.var` (`ddof = 0`). -/
noncomputable def npVar (l : List ℝ) : ℝ :=
  meanR (l.map (fun x => (x - meanR l) ^ 2))

/-- Population standard deviation `np.std` (`ddof = 0`). -/
noncomputable def npStd (l : List ℝ) : ℝ := Real.sqrt (npVar l)

/-- Sample variance as computed by `pandas.Series.var` (`ddof = 1`): it is
NaN (modelled `none`) on a series of fewer than two samples. -/
def pandasVarQ (l : List ℚ) : Option ℚ :=
  if l.length < 2 then none
  else some ((l.map (fun x => (x - qmean l) ^ 2)).sum / ((l.length - 1 : ℕ) : ℚ))

/-- Sample standard deviation as computed by `pandas.Series.std`
(`ddof = 1`): NaN (modelled `none`) on fewer than two samples. -/
noncomputable def pandasStd (l : List ℚ) : Option ℝ :=
  (pandasVarQ l).map (fun v => Real.sqrt ((v : ℚ) : ℝ))

/-- Mean as computed by `pandas.Series.mean`: NaN (modelled `none`) on an
empty series. -/
def pandasMeanQ (l : List ℚ) : Option ℚ :=
  if l.isEmpty then none else some (qmean l)

/-- Absolute first differences `series.diff().abs()` with the leading NaN
dropped (pandas statistics skip it). -/
def absDiffs (l : List ℚ) : List ℚ :=
  (l.zip l.tail).map (fun p => |p.2 - p.1|)

/-- Python `max(0, t)` where `t` may be NaN (modelled `none`): the
comparison `t > 0` is false for NaN, so Python returns the first
argument `0`. -/
noncomputable def pyMax0 : Option ℝ → ℝ
  | none => 0
  | some t => max 0 t

/-! ### 3-vectors -/

/-- A 3-D sample (wrist position, accelerometer or gyroscope reading);
coordinates are modelled as rationals. -/
structure Vec3 where
  x : ℚ
  y : ℚ
  z : ℚ
deriving DecidableEq

instance : Inhabited Vec3 := ⟨⟨0, 0, 0⟩⟩

/-- Euclidean norm `np.linalg.norm`. -/
noncomputable def norm3 (v : Vec3) : ℝ :=
  Real.sqrt (((v.x : ℝ)) ^ 2 + ((v.y : ℝ)) ^ 2 + ((v.z : ℝ)) ^ 2)

/-- Euclidean distance between consecutive samples,
`sqrt(dx**2 + dy**2 + dz**2)`. -/
noncomputable def dist3 (p q : Vec3) : ℝ :=
  Real.sqrt (((q.x - p.x : ℚ) : ℝ) ^ 2 + ((q.y - p.y : ℚ) : ℝ) ^ 2 +
    ((q.z - p.z : ℚ) : ℝ) ^ 2)

/-- Consecutive-sample distances: `np.sqrt(dx**2 + dy**2 + dz**2)` for the
`np.diff` of the three coordinate arrays. -/
noncomputable def distances (l : List Vec3) : List ℝ :=
  (l.zip l.tail).map (fun p => dist3 p.1 p.2)

/-! ### Second-order-section filtering (`scipy.signal.sosfilt`) -/

/-- One biquad section of `scipy.signal.sosfilt` in direct form II
transposed: `y = b0*x + z1; z1 = b1*x - a1*y + z2; z2 = b2*x - a2*y`,
with zero initial state. -/
def sosSection {α : Type} [Field α] (b0 b1 b2 a1 a2 : α) :
    α → α → List α → List α
  | _, _, [] => []
  | z1, z2, x :: xs =>
    let y := b0 * x + z1
    y :: sosSection b0 b1 b2 a1 a2 (b1 * x - a1 * y + z2) (b2 * x - a2 * y) xs

/-- Leading numerator coefficient (section gain) of the first biquad of the
order-4 Butterworth high-pass with normalized cutoff 0.2
(`scipy.signal.butter(4, 0.2, 'hp', output='sos')`); the double-precision
design value written as an exact dyadic rational. -/
def hp02b0 : ℚ := 15229437414741 / 35184372088832

/-- Denominator coefficient `a1` of the first biquad of the cutoff-0.2
high-pass design. -/
def hp02a1 : ℚ := -5948865234827051 / 4503599627370496

/-- Denominator coefficient `a2` of the first biquad of the cutoff-0.2
high-pass design. -/
def hp02a2 : ℚ := 712400547965247 / 1125899906842624

/-- Denominator coefficient `a1` of the second biquad of the cutoff-0.2
high-pass design. -/
def hp02c1 : ℚ := -2361236330683759 / 2251799813685248

/-- Denominator coefficient `a2` of the second biquad of the cutoff-0.2
high-pass design. -/
def hp02c2 : ℚ := 5334790415856403 / 18014398509481984

/-- Leading numerator coefficient (section gain) of the first biquad of the
order-4 Butterworth high-pass with normalized cutoff 0.1
(`scipy.signal.butter(4, 0.1, 'hp', output='sos')`). -/
def hp01b0 : ℚ := 5962908555478151 / 9007199254740992

/-- Denominator coefficient `a1` of the first biquad of the cutoff-0.1
high-pass design. -/
def hp01a1 : ℚ := -957557791438921 / 562949953421312

/-- Denominator coefficient `a2` of the first biquad of the cutoff-0.1
high-pass design. -/
def hp01a2 : ℚ := 7102174268827819 / 9007199254740992

/-- Denominator coefficient `a1` of the second biquad of the cutoff-0.1
high-pass design. -/
def hp01c1 : ℚ := -6663860252001053 / 4503599627370496

/-- Denominator coefficient `a2` of the second biquad of the cutoff-0.1
high-pass design. -/
def hp01c2 : ℚ := 2503197695211511 / 4503599627370496

/-- The order-4 Butterworth high-pass with cutoff fraction 0.2 realized as a
cascade of two biquads, `sosfilt(butter(4, 0.2, 'hp', output='sos'), xs)`.
Both biquads have numerator shape `g*(1, -2, 1)`; the overall design gain
sits on the first section. -/
def butterHP02 {α : Type} [Field α] (xs : List α) : List α :=
  sosSection 1 (-2) 1 ((hp02c1 : ℚ) : α) ((hp02c2 : ℚ) : α) 0 0
    (sosSection ((hp02b0 : ℚ) : α) (-2 * ((hp02b0 : ℚ) : α)) ((hp02b0 : ℚ) : α)
      ((hp02a1 : ℚ) : α) ((hp02a2 : ℚ) : α) 0 0 xs)

/-- The order-4 Butterworth high-pass with cutoff fraction 0.1, as realized
by `sosfilt(butter(4, 0.1, 'hp', output='sos'), xs)`. -/
def butterHP01 {α : Type} [Field α] (xs : List α) : List α :=
  sosSection 1 (-2) 1 ((hp01c1 : ℚ) : α) ((hp01c2 : ℚ) : α) 0 0
    (sosSection ((hp01b0 : ℚ) : α) (-2 * ((hp01b0 : ℚ) : α)) ((hp01b0 : ℚ) : α)
      ((hp01a1 : ℚ) : α) ((hp01a2 : ℚ) : α) 0 0 xs)

/-- Hand tremor sub-computation of `calculate_hand_metrics`
(mps_analyzer.py lines 160-166): high-pass filter the velocity series with
cutoff 0.2 when strictly more than 100 samples exist, else 0. -/
def handTremorMetric {α : Type} [LinearOrderedField α] (v : List α) : α :=
  if 100 < v.length then meanAbs (butterHP02 v) else 0

/-- Motion tremor sub-computation of `_calculate_motion_metrics`
(metrics_calculator.py lines 71-75): high-pass filter the
acceleration-magnitude series with cutoff 0.1 when strictly more than 100
samples exist, else 0. -/
def motionTremorMetric {α : Type} [LinearOrderedField α] (v : List α) : α :=
  if 100 < v.length then meanAbs (butterHP01 v) else 0

/-- Windowed downsampling of the tremor signal to the frame count
(metrics_calculator.py lines 77-82): the list comprehension
`[mean(abs(ts[i:i+10])) if i+10 < len(ts) else 0
  for i in range(0, len(ts), max(1, len(ts)//num_frames))][:num_frames]`.
Note: for `numFrames = 0` Python would raise ZeroDivisionError; in this
model natural division yields step 1 and the final `take 0` empties the
result, a case no theorem below relies on. -/
def tremorPerFrame {α : Type} [LinearOrderedField α] (ts : List α)
    (numFrames : ℕ) : List α :=
  let L := ts.length
  let step := max 1 (L / numFrames)
  let count := (L + step - 1) / step
  ((List.range count).map (fun k =>
    if k * step + 10 < L then meanAbs ((ts.drop (k * step)).take 10) else 0)).take
    numFrames

/-! ### MotionAnalyzer (`_calculate_motion_metrics`) -/

/-- One IMU record: accelerometer (m/s²) and gyroscope (rad/s) readings. -/
structure IMUSample where
  accel : Vec3
  gyro : Vec3
deriving DecidableEq

instance : Inhabited IMUSample := ⟨⟨default, default⟩⟩

/-- Linear-acceleration magnitude after componentwise gravity subtraction,
`np.linalg.norm(accel - np.array([0, 0, 9.81]))`. -/
noncomputable def accelMagnitude (s : IMUSample) : ℝ :=
  Real.sqrt (((s.accel.x : ℝ)) ^ 2 + ((s.accel.y : ℝ)) ^ 2 +
    ((s.accel.z : ℝ) - 9.81) ^ 2)

/-- Result dictionary of `_calculate_motion_metrics`; all four keys are
always present. -/
structure MotionMetrics where
  head_movement_total : ℝ
  head_stability_score : ℝ
  avg_tremor : ℝ
  tremor_per_frame : List ℝ

/-- The motion analyzer `_calculate_motion_metrics`
(metrics_calculator.py lines 29-87).  An absent/empty IMU stream yields the
all-default record; `num_frames` is the session frame count used to
downsample the tremor signal. -/
noncomputable def calculateMotionMetrics (imu : List IMUSample)
    (numFrames : ℕ) : MotionMetrics :=
  if imu.isEmpty then ⟨0, 0, 0, []⟩
  else
    let gyroMags := imu.map (fun s => norm3 s.gyro)
    let accelMags := imu.map accelMagnitude
    { head_movement_total := gyroMags.sum
      head_stability_score := max 0 (10 - 10 * npStd gyroMags)
      avg_tremor := motionTremorMetric accelMags
      tremor_per_frame :=
        if 100 < accelMags.length then
          tremorPerFrame (butterHP01 accelMags) numFrames
        else [] }

/-! ### GazeAnalyzer (`calculate_gaze_metrics`) -/

/-- One eye-gaze record: pitch, left/right yaw (radians) and depth
(meters). -/
structure GazeSample where
  pitch : ℚ
  lyaw : ℚ
  ryaw : ℚ
  depth : ℚ
deriving DecidableEq

/-- Result dictionary of `calculate_gaze_metrics` on a non-empty track.
`gaze_focus_consistency` and `avg_gaze_shift` can be NaN (single-sample
track, pandas `ddof = 1` statistics), hence `Option`. -/
structure GazeMetrics where
  gaze_stability : ℝ
  avg_gaze_depth_m : ℝ
  gaze_focus_consistency : Option ℝ
  avg_gaze_shift : Option ℝ
  saccades_per_second : ℚ

/-- Combined gaze variance `(var(pitch)+var(left_yaw)+var(right_yaw))/3`;
NaN (modelled `none`) when the pandas sample variances are NaN. -/
def gazeVariance (g : List GazeSample) : Option ℚ :=
  match pandasVarQ (g.map (fun s => s.pitch)),
      pandasVarQ (g.map (fun s => s.lyaw)),
      pandasVarQ (g.map (fun s => s.ryaw)) with
  | some a, some b, some c => some ((a + b + c) / 3)
  | _, _, _ => none

/-- The gaze analyzer `calculate_gaze_metrics`
(mps_analyzer.py lines 87-117); `none` is the `{}` returned for an empty or
absent track. -/
noncomputable def calculateGazeMetrics (g : List GazeSample) :
    Option GazeMetrics :=
  if g.isEmpty then none
  else
    let pitchDiffs := absDiffs (g.map (fun s => s.pitch))
    let yawDiffs := absDiffs (g.map (fun s => (s.lyaw + s.ryaw) / 2))
    some
      { gaze_stability :=
          pyMax0 ((gazeVariance g).map (fun v => 10 - ((v : ℚ) : ℝ) * 100))
        avg_gaze_depth_m := ((qmean (g.map (fun s => s.depth)) : ℚ) : ℝ)
        gaze_focus_consistency :=
          (pandasStd (g.map (fun s => s.depth))).map (fun s => 1 / (1 + s))
        avg_gaze_shift :=
          match pandasMeanQ pitchDiffs, pandasMeanQ yawDiffs with
          | some a, some b => some (((a + b) / 2 : ℚ) : ℝ)
          | _, _ => none
        saccades_per_second :=
          ((pitchDiffs.countP (fun d => decide ((1 : ℚ) / 10 < d)) : ℚ)) /
            ((g.length : ℚ) / 10) }

/-! ### HandKinematicsAnalyzer (`calculate_hand_metrics`) -/

/-- The hand-tracking data frame: a row count plus the optional columns the
analyzer looks at (wrist position triple, timestamps in µs, confidence).
A present column holds one entry per row. -/
structure HandDF where
  nrows : ℕ
  wrist : Option (List Vec3)
  timestamps : Option (List ℚ)
  confidence : Option (List ℚ)

/-- Validity test of the source (mps_analyzer.py line 136): the boolean
mask `(~np.isnan(wrist_x)) & (wrist_x != -1) & (wrist_x != 0)` is built
from the x column only and applied to all three coordinate columns. -/
def validSample (p : Vec3) : Bool :=
  decide (p.x ≠ -1) && decide (p.x ≠ 0)

/-- Validity rule as worded by the spec (§3): a sample is invalid if its
position is exactly zero, −1 in any axis, or not-a-number.  Stated for the
refinement comparison with `validSample`; NaN coordinates do not occur in
the rational model. -/
def specValidSample (p : Vec3) : Bool :=
  !(decide (p.x = 0) && decide (p.y = 0) && decide (p.z = 0)) &&
    decide (p.x ≠ -1) && decide (p.y ≠ -1) && decide (p.z ≠ -1)

/-- Result dictionary of `calculate_hand_metrics`; every key is optional. -/
structure HandMetrics where
  path_length_m : Option ℝ
  avg_speed_m_s : Option ℝ
  velocity_variance : Option ℝ
  smoothness_score : Option ℝ
  hand_tremor : Option ℝ
  workspace_volume_m3 : Option ℝ
  efficiency : Option ℝ
  task_duration_s : Option ℝ
  avg_confidence : Option ℝ

/-- The empty metrics dictionary `{}`. -/
def HandMetrics.empty : HandMetrics :=
  ⟨none, none, none, none, none, none, none, none, none⟩

/-- Maximum of a numpy array (`.max()`), used on the non-empty valid
coordinate arrays. -/
def listMax (l : List ℚ) : ℚ :=
  match l with
  | [] => 0
  | x :: xs => xs.foldl max x

/-- Minimum of a numpy array (`.min()`). -/
def listMin (l : List ℚ) : ℚ :=
  match l with
  | [] => 0
  | x :: xs => xs.foldl min x

/-- Task duration from the timestamp column:
`(iloc[-1] - iloc[0]) / 1e6` (mps_analyzer.py lines 182-185).  The `iloc`
accesses only happen on a non-empty frame; an empty column is mapped to
`none`. -/
noncomputable def taskDuration : Option (List ℚ) → Option ℝ
  | none => none
  | some ts =>
    match ts.head?, ts.getLast? with
    | some a, some b => some (((b - a : ℚ) : ℝ) / 1000000)
    | _, _ => none

/-- Mean of the confidence column (mps_analyzer.py lines 188-189); pandas
mean of an empty column is NaN, modelled `none`. -/
noncomputable def avgConfidence : Option (List ℚ) → Option ℝ
  | none => none
  | some c => if c.isEmpty then none else some ((qmean c : ℚ) : ℝ)

/-- The hand analyzer `calculate_hand_metrics`
(mps_analyzer.py lines 119-191).  Note the source's early `return metrics`
when fewer than 10 valid frames exist: at that point `metrics` is still the
empty dict, so the timestamp/confidence blocks further down are skipped. -/
noncomputable def calculateHandMetrics (df : HandDF) : HandMetrics :=
  if df.nrows = 0 then HandMetrics.empty
  else
    let base : HandMetrics :=
      { HandMetrics.empty with
        task_duration_s := taskDuration df.timestamps
        avg_confidence := avgConfidence df.confidence }
    match df.wrist with
    | none => base
    | some w =>
      let valid := w.filter validSample
      if valid.length < 10 then HandMetrics.empty
      else
        let dists := distances valid
        let pathL := dists.sum
        let velocities := dists.map (fun d => d * 10)
        { base with
          path_length_m := some pathL
          avg_speed_m_s := some (meanR dists * 10)
          velocity_variance := some (npVar velocities)
          smoothness_score := some (max 0 (10 - npVar velocities * 1000))
          hand_tremor := some (handTremorMetric velocities)
          workspace_volume_m3 := some
            ((((listMax (valid.map (fun p => p.x)) -
                listMin (valid.map (fun p => p.x))) *
               (listMax (valid.map (fun p => p.y)) -
                listMin (valid.map (fun p => p.y))) *
               (listMax (valid.map (fun p => p.z)) -
                listMin (valid.map (fun p => p.z))) : ℚ) : ℝ))
          efficiency := some
            (if 0 < pathL then dist3 valid.headI valid.getLastI / pathL
             else 0) }

/-! ### Recommendation generation (`_generate_recommendations`) -/

/-- Priority tag of a recommendation. -/
inductive Priority where
  | HIGH
  | MEDIUM
  | LOW
deriving DecidableEq

/-- The fixed `priority_order = {'HIGH': 0, 'MEDIUM': 1, 'LOW': 2}` used as
the sort key. -/
def priorityOrder : Priority → ℕ
  | .HIGH => 0
  | .MEDIUM => 1
  | .LOW => 2

/-- One recommendation entry; the prose `issue`/`advice` strings carry no
logic and are elided. -/
structure Recommendation where
  priority : Priority
  area : String
deriving DecidableEq

/-- Hand-tracking metrics as read by the dashboard (`ht.get(key, 0)`). -/
structure DashHandMetrics where
  path_length_m : Option ℚ
  smoothness_score : Option ℚ
  efficiency : Option ℚ
  hand_tremor : Option ℚ
deriving DecidableEq

/-- Python truthiness of the `hand_tracking` dict: non-empty. -/
def dashHandNonempty (ht : DashHandMetrics) : Bool :=
  ht.path_length_m.isSome || ht.smoothness_score.isSome ||
    ht.efficiency.isSome || ht.hand_tremor.isSome

/-- The metrics mapping consumed by `_generate_recommendations`:
the optional `hand_tracking` sub-dict, the `head_stability_score` of an
optional `motion` category, and an optional `eye_tracking` sub-dict whose
`gaze_stability` entry may itself be absent. -/
structure DashMetrics where
  hand_tracking : Option DashHandMetrics
  motion : Option ℚ
  eye_tracking : Option (Option ℚ)

/-- Hand-tracking recommendations
(dashboard_generator.py lines 266-303). -/
def handRecs : Option DashHandMetrics → List Recommendation
  | none => []
  | some ht =>
    if dashHandNonempty ht then
      (if 3 < ht.path_length_m.getD 0 then
        [⟨Priority.HIGH, "Path Length"⟩] else []) ++
      (if ht.smoothness_score.getD 0 < 5 then
        [⟨Priority.HIGH, "Movement Smoothness"⟩] else []) ++
      (if ht.efficiency.getD 0 < 3 / 10 then
        [⟨Priority.MEDIUM, "Movement Efficiency"⟩] else []) ++
      (if 1 / 100 < ht.hand_tremor.getD 0 then
        [⟨Priority.MEDIUM, "Hand Tremor"⟩] else [])
    else []

/-- Head-stability recommendation (dashboard_generator.py lines 306-314). -/
def motionRecs : Option ℚ → List Recommendation
  | none => []
  | some hs => if hs < 8 then [⟨Priority.MEDIUM, "Head Stability"⟩] else []

/-- Gaze-stability recommendation (dashboard_generator.py lines 316-324). -/
def eyeRecs : Option (Option ℚ) → List Recommendation
  | none => []
  | some og =>
    if og.isSome then
      (if og.getD 0 < 8 then [⟨Priority.LOW, "Gaze Stability"⟩] else [])
    else []

/-- Sort order of `recommendations.sort(key=lambda x: priority_order[x])`. -/
def recLE (a b : Recommendation) : Prop :=
  priorityOrder a.priority ≤ priorityOrder b.priority

instance : DecidableRel recLE := fun a b =>
  inferInstanceAs (Decidable (priorityOrder a.priority ≤ priorityOrder b.priority))

instance : IsTotal Recommendation recLE :=
  ⟨fun a b => Nat.le_total (priorityOrder a.priority) (priorityOrder b.priority)⟩

instance : IsTrans Recommendation recLE :=
  ⟨fun _ _ _ hab hbc => Nat.le_trans hab hbc⟩

/-- The recommendation generator `_generate_recommendations`
(dashboard_generator.py lines 261-330): collect the triggered entries, then
stable-sort them by priority. -/
def generateRecommendations (m : DashMetrics) : List Recommendation :=
  List.insertionSort recLE
    (handRecs m.hand_tracking ++ motionRecs m.motion ++ eyeRecs m.eye_tracking)

/-! ### Claim C1 -/

/-- Concrete five-row hand frame with wrist, timestamp and confidence
columns; all five wrist samples are valid, so the valid count is 5 < 10. -/
def c1df : HandDF :=
  ⟨5, some (List.replicate 5 ⟨1, 2, 3⟩), some [0, 100, 200, 300, 400],
    some [1, 1, 1, 1, 1]⟩

/-- C1 counterexample: for a hand frame with confidence and timestamp
columns but fewer than 10 valid wrist samples, `calculate_hand_metrics`
returns the empty mapping — `avg_confidence` and `task_duration_s` are NOT
present, contrary to the claim. -/
theorem C1_counterexample :
    calculateHandMetrics c1df = HandMetrics.empty := by
  rfl

/-- C1 (amended): whenever the wrist columns are present and fewer than 10
valid samples exist, `calculate_hand_metrics` returns the empty mapping
(the early return also skips the confidence/timestamp metrics). -/
theorem C1_below_ten_valid_returns_empty (df : HandDF) (w : List Vec3)
    (hw : df.wrist = some w) (hv : (w.filter validSample).length < 10) :
    calculateHandMetrics df = HandMetrics.empty := by
  unfold calculateHandMetrics
  rcases df with ⟨n, wr, ts, cf⟩
  cases hw
  by_cases h0 : n = 0
  · simp [h0]
  · simp only [h0, if_false, if_neg h0]
    simp [hv]

/-- C1 witness: the amended theorem applied to the concrete frame. -/
theorem C1_witness :
    (c1df.wrist = some (List.replicate 5 ⟨1, 2, 3⟩) ∧
      ((List.replicate 5 (⟨1, 2, 3⟩ : Vec3)).filter validSample).length < 10) ∧
    calculateHandMetrics c1df = HandMetrics.empty :=
  ⟨⟨rfl, by decide⟩,
    C1_below_ten_valid_returns_empty c1df _ rfl (by decide)⟩

/-! ### Claim C2 -/

/-- C2 counterexample: on the single-sample gaze track the pandas sample
standard deviation is NaN (`none`), so `gaze_focus_consistency` is NaN as
well — contradicting "never NaN, including for a track with exactly one
sample". -/
theorem C2_counterexample :
    (calculateGazeMetrics [⟨0, 0, 0, 1⟩]).map
      (fun m => m.gaze_focus_consistency) = some none := by
  simp [calculateGazeMetrics, pandasStd, pandasVarQ]

/-- C2 (amended): for every gaze track with at least two samples,
`gaze_focus_consistency` equals `1 / (1 + std(depth))` and lies in the
half-open interval (0, 1]; for a single-sample track the pandas sample
standard deviation, and hence the metric, is NaN instead. -/
theorem C2_focus_consistency (g : List GazeSample) (h2 : 2 ≤ g.length) :
    ∃ s : ℝ, 0 ≤ s ∧ pandasStd (g.map (fun x => x.depth)) = some s ∧
      ∃ m, calculateGazeMetrics g = some m ∧
        m.gaze_focus_consistency = some (1 / (1 + s)) ∧
        0 < 1 / (1 + s) ∧ 1 / (1 + s) ≤ 1 := by
  have hne : g.isEmpty = false := by
    cases g with
    | nil => simp at h2
    | cons a l => simp
  have hlen : ¬ (g.map (fun x => x.depth)).length < 2 := by
    simp only [List.length_map]
    omega
  obtain ⟨v, hv⟩ : ∃ v, pandasVarQ (g.map (fun x => x.depth)) = some v := by
    unfold pandasVarQ
    rw [if_neg hlen]
    exact ⟨_, rfl⟩
  refine ⟨Real.sqrt ((v : ℚ) : ℝ), Real.sqrt_nonneg _, ?_, ?_⟩
  · simp [pandasStd, hv]
  · have hs0 : (0:ℝ) ≤ Real.sqrt ((v : ℚ) : ℝ) := Real.sqrt_nonneg _
    have h1s : (0:ℝ) < 1 + Real.sqrt ((v : ℚ) : ℝ) := by linarith
    have key : (calculateGazeMetrics g).map (fun m => m.gaze_focus_consistency) =
        some ((pandasStd (g.map fun x => x.depth)).map (fun s => 1 / (1 + s))) := by
      simp [calculateGazeMetrics, hne]
    obtain ⟨m, hm, hfield⟩ : ∃ m, calculateGazeMetrics g = some m ∧
        m.gaze_focus_consistency =
          (pandasStd (g.map fun x => x.depth)).map (fun s => 1 / (1 + s)) := by
      rcases hcm : calculateGazeMetrics g with _ | m
      · rw [hcm] at key
        simp at key
      · rw [hcm] at key
        simp at key
        refine ⟨m, rfl, ?_⟩
        simpa [one_div] using key
    refine ⟨m, hm, ?_, ?_, ?_⟩
    · rw [hfield]
      simp [pandasStd, hv]
    · positivity
    · rw [div_le_one h1s]
      linarith

/-- C2 witness: the amended theorem applied to a concrete two-sample
track. -/
theorem C2_witness :
    2 ≤ ([⟨0, 0, 0, 1⟩, ⟨0, 0, 0, 2⟩] : List GazeSample).length ∧
    ∃ s : ℝ, 0 ≤ s ∧
      pandasStd (([⟨0, 0, 0, 1⟩, ⟨0, 0, 0, 2⟩] : List GazeSample).map
        (fun x => x.depth)) = some s ∧
      ∃ m, calculateGazeMetrics [⟨0, 0, 0, 1⟩, ⟨0, 0, 0, 2⟩] = some m ∧
        m.gaze_focus_consistency = some (1 / (1 + s)) ∧
        0 < 1 / (1 + s) ∧ 1 / (1 + s) ≤ 1 :=
  ⟨by decide, C2_focus_consistency _ (by decide)⟩

/-! ### Claim C3 -/

/-- C3 counterexample: the sample (1, −1, 5) has −1 in the y axis, so the
claimed rule calls it invalid, yet the code's mask (built from x only)
keeps it; conversely (0, 1, 2) is not the zero vector and has no −1
anywhere, yet the code discards it because its x is 0. -/
theorem C3_counterexample :
    validSample ⟨1, -1, 5⟩ = true ∧ specValidSample ⟨1, -1, 5⟩ = false ∧
    validSample ⟨0, 1, 2⟩ = false ∧ specValidSample ⟨0, 1, 2⟩ = true := by
  decide

/-- C3 (amended): a sample is treated as invalid exactly when its
x-coordinate is −1 or 0 (NaN in the source's float world); the y and z
coordinates are never examined.  The position-derived metrics are computed
over exactly the samples passing this test, e.g. `path_length_m` is the sum
of consecutive distances of the filtered sub-sequence. -/
theorem C3_validity_uses_x_only :
    (∀ p : Vec3, validSample p = true ↔ (p.x ≠ -1 ∧ p.x ≠ 0)) ∧
    ∀ (df : HandDF) (w : List Vec3), df.nrows ≠ 0 → df.wrist = some w →
      10 ≤ (w.filter validSample).length →
      (calculateHandMetrics df).path_length_m =
        some (distances (w.filter validSample)).sum := by
  constructor
  · intro p
    simp [validSample]
  · intro df w h0 hw hv
    unfold calculateHandMetrics
    rcases df with ⟨n, wr, ts, cf⟩
    cases hw
    simp only [h0, if_neg h0]
    have : ¬ (w.filter validSample).length < 10 := by omega
    simp [this]

/-- Ten all-valid wrist samples strictly increasing along x. -/
def w10 : List Vec3 :=
  [⟨1, 5, 5⟩, ⟨2, 5, 5⟩, ⟨3, 5, 5⟩, ⟨4, 5, 5⟩, ⟨5, 5, 5⟩,
   ⟨6, 5, 5⟩, ⟨7, 5, 5⟩, ⟨8, 5, 5⟩, ⟨9, 5, 5⟩, ⟨10, 5, 5⟩]

/-- A ten-row frame holding `w10` as its wrist column. -/
def df10 : HandDF := ⟨10, some w10, none, none⟩

/-- C3 witness: the amended theorem applied to a concrete sample and a
concrete ten-row frame. -/
theorem C3_witness :
    (validSample ⟨5, 5, 5⟩ = true ↔ ((5:ℚ) ≠ -1 ∧ (5:ℚ) ≠ 0)) ∧
    (calculateHandMetrics df10).path_length_m =
      some (distances (w10.filter validSample)).sum :=
  ⟨C3_validity_uses_x_only.1 _,
    C3_validity_uses_x_only.2 df10 w10 (by decide) rfl (by decide)⟩

/-! ### Claim C4 -/

/-- Unfolding a biquad section one input sample at a time. -/
theorem sosSection_cons {α : Type} [Field α] (b0 b1 b2 a1 a2 z1 z2 x : α)
    (xs : List α) :
    sosSection b0 b1 b2 a1 a2 z1 z2 (x :: xs) =
      (b0 * x + z1) :: sosSection b0 b1 b2 a1 a2
        (b1 * x - a1 * (b0 * x + z1) + z2) (b2 * x - a2 * (b0 * x + z1)) xs :=
  rfl

/-- A biquad section preserves the length of the series. -/
theorem sosSection_length {α : Type} [Field α] (b0 b1 b2 a1 a2 : α) :
    ∀ (z1 z2 : α) (xs : List α),
      (sosSection b0 b1 b2 a1 a2 z1 z2 xs).length = xs.length
  | _, _, [] => rfl
  | z1, z2, _ :: xs => by
    rw [sosSection_cons, List.length_cons, sosSection_length, List.length_cons]

/-- The mean absolute value of a series whose first entry is non-zero is
positive. -/
theorem meanAbs_pos_of_head {α : Type} [LinearOrderedField α] (l : List α)
    (y : α) (hh : l.head? = some y) (hy : y ≠ 0) : 0 < meanAbs l := by
  cases l with
  | nil => simp at hh
  | cons a t =>
    have ha : a = y := by simpa using hh
    subst ha
    have hsum : (0:α) < |a| + (t.map (fun x => |x|)).sum := by
      have h1 : (0:α) < |a| := abs_pos.mpr hy
      have h2 : (0:α) ≤ (t.map (fun x => |x|)).sum := by
        apply List.sum_nonneg
        intro x hx
        obtain ⟨u, _, rfl⟩ := List.mem_map.mp hx
        exact abs_nonneg u
      linarith
    have hlen : (0:α) < ((a :: t).length : α) := by
      have := t.length.cast_add_one_pos (α := α)
      simpa using this
    unfold meanAbs
    rw [List.map_cons, List.sum_cons]
    exact div_pos hsum hlen

/-- A 100-sample velocity series starting with an impulse. -/
def v100 : List ℚ := 1 :: List.replicate 99 0

/-- C4 counterexample: `v100` has exactly 100 samples — "at least 100" per
the claim — yet both tremor metrics are 0 because the source tests
`len > 100`, while the mean absolute value of the filtered series the claim
prescribes is strictly positive. -/
theorem C4_counterexample :
    v100.length = 100 ∧
    handTremorMetric v100 = 0 ∧ 0 < meanAbs (butterHP02 v100) ∧
    motionTremorMetric v100 = 0 ∧ 0 < meanAbs (butterHP01 v100) := by
  have hlen : v100.length = 100 := by simp [v100]
  refine ⟨hlen, ?_, ?_, ?_, ?_⟩
  · simp [handTremorMetric, hlen]
  · apply meanAbs_pos_of_head _ (1 * ((hp02b0 : ℚ) * 1 + 0) + 0)
    · show (butterHP02 (1 :: List.replicate 99 0)).head? = _
      unfold butterHP02
      rw [sosSection_cons, sosSection_cons, List.head?_cons, Rat.cast_id]
    · norm_num [hp02b0]
  · simp [motionTremorMetric, hlen]
  · apply meanAbs_pos_of_head _ (1 * ((hp01b0 : ℚ) * 1 + 0) + 0)
    · show (butterHP01 (1 :: List.replicate 99 0)).head? = _
      unfold butterHP01
      rw [sosSection_cons, sosSection_cons, List.head?_cons, Rat.cast_id]
    · norm_num [hp01b0]

/-- C4 (amended): the tremor metrics equal the mean absolute value of the
Butterworth high-pass filtered series only for strictly more than 100
samples; for 100 samples or fewer (including exactly 100) they are 0. -/
theorem C4_tremor_threshold {α : Type} [LinearOrderedField α] (v : List α) :
    (100 < v.length →
      handTremorMetric v = meanAbs (butterHP02 v) ∧
      motionTremorMetric v = meanAbs (butterHP01 v)) ∧
    (v.length ≤ 100 →
      handTremorMetric v = 0 ∧ motionTremorMetric v = 0) := by
  constructor
  · intro h
    constructor
    · simp [handTremorMetric, h]
    · simp [motionTremorMetric, h]
  · intro h
    have h' : ¬ 100 < v.length := by omega
    constructor
    · simp [handTremorMetric, h']
    · simp [motionTremorMetric, h']

/-- A 101-sample constant velocity series. -/
def v101 : List ℚ := List.replicate 101 1

/-- C4 witness: both branches of the amended theorem at concrete series. -/
theorem C4_witness :
    (100 < v101.length ∧ handTremorMetric v101 = meanAbs (butterHP02 v101)) ∧
    (v100.length ≤ 100 ∧ handTremorMetric v100 = 0) :=
  ⟨⟨by simp [v101], ((C4_tremor_threshold v101).1 (by simp [v101])).1⟩,
   ⟨by simp [v100], ((C4_tremor_threshold v100).2 (by simp [v100])).1⟩⟩

/-! ### Claim C5 -/

/-- C5: for every non-empty IMU stream, `head_stability_score` equals
`max(0, 10 − 10·std(gyro magnitudes))`; it is exactly 10 when the standard
deviation is 0, it is never below 0, and the defining map is monotonically
non-increasing in the standard deviation. -/
theorem C5_head_stability (imu : List IMUSample) (numFrames : ℕ)
    (hne : imu ≠ []) :
    (calculateMotionMetrics imu numFrames).head_stability_score =
      max 0 (10 - 10 * npStd (imu.map (fun s => norm3 s.gyro))) ∧
    (npStd (imu.map (fun s => norm3 s.gyro)) = 0 →
      (calculateMotionMetrics imu numFrames).head_stability_score = 10) ∧
    0 ≤ (calculateMotionMetrics imu numFrames).head_stability_score ∧
    (∀ s t : ℝ, s ≤ t → max 0 (10 - 10 * t) ≤ max 0 (10 - 10 * s)) := by
  have hne' : imu.isEmpty = false := by
    cases imu with
    | nil => exact absurd rfl hne
    | cons a l => simp
  have hmain : (calculateMotionMetrics imu numFrames).head_stability_score =
      max 0 (10 - 10 * npStd (imu.map (fun s => norm3 s.gyro))) := by
    simp [calculateMotionMetrics, hne']
  refine ⟨hmain, ?_, ?_, ?_⟩
  · intro h0
    rw [hmain, h0]
    norm_num
  · rw [hmain]
    exact le_max_left _ _
  · intro s t hst
    apply max_le_max le_rfl
    linarith

/-- C5 witness: the theorem applied to a concrete one-sample stream. -/
theorem C5_witness :
    ([⟨⟨0, 0, 0⟩, ⟨0, 0, 0⟩⟩] : List IMUSample) ≠ [] ∧
    ((calculateMotionMetrics [⟨⟨0, 0, 0⟩, ⟨0, 0, 0⟩⟩] 7).head_stability_score =
      max 0 (10 - 10 * npStd (([⟨⟨0, 0, 0⟩, ⟨0, 0, 0⟩⟩] : List IMUSample).map
        (fun s => norm3 s.gyro))) ∧
    (npStd (([⟨⟨0, 0, 0⟩, ⟨0, 0, 0⟩⟩] : List IMUSample).map
        (fun s => norm3 s.gyro)) = 0 →
      (calculateMotionMetrics [⟨⟨0, 0, 0⟩, ⟨0, 0, 0⟩⟩] 7).head_stability_score = 10) ∧
    0 ≤ (calculateMotionMetrics [⟨⟨0, 0, 0⟩, ⟨0, 0, 0⟩⟩] 7).head_stability_score ∧
    (∀ s t : ℝ, s ≤ t → max 0 (10 - 10 * t) ≤ max 0 (10 - 10 * s))) :=
  ⟨by simp, C5_head_stability _ 7 (by simp)⟩

/-! ### Claim C6 -/

/-- On the branch with wrist columns and at least 10 valid samples, the
`efficiency` entry is exactly the guarded quotient of the source. -/
theorem efficiency_formula (df : HandDF) (w : List Vec3) (h0 : df.nrows ≠ 0)
    (hw : df.wrist = some w) (hv : 10 ≤ (w.filter validSample).length) :
    (calculateHandMetrics df).efficiency =
      some (if 0 < (distances (w.filter validSample)).sum then
        dist3 (w.filter validSample).headI (w.filter validSample).getLastI /
          (distances (w.filter validSample)).sum
      else 0) := by
  unfold calculateHandMetrics
  rcases df with ⟨n, wr, ts, cf⟩
  cases hw
  simp only [if_neg h0]
  have hnl : ¬ (w.filter validSample).length < 10 := by omega
  simp [hnl]

/-- C6: with at least 10 valid samples, `efficiency` is the straight-line
distance from the first to the last valid position divided by
`path_length_m` when the path length is positive, exactly 0 when the path
length is 0, and in all cases a defined non-negative real (never
NaN/infinite). -/
theorem C6_efficiency_defined (df : HandDF) (w : List Vec3) (h0 : df.nrows ≠ 0)
    (hw : df.wrist = some w) (hv : 10 ≤ (w.filter validSample).length) :
    (0 < (distances (w.filter validSample)).sum →
      (calculateHandMetrics df).efficiency =
        some (dist3 (w.filter validSample).headI (w.filter validSample).getLastI /
          (distances (w.filter validSample)).sum)) ∧
    ((distances (w.filter validSample)).sum = 0 →
      (calculateHandMetrics df).efficiency = some 0) ∧
    ∀ e, (calculateHandMetrics df).efficiency = some e → 0 ≤ e := by
  have heff := efficiency_formula df w h0 hw hv
  refine ⟨?_, ?_, ?_⟩
  · intro hpos
    rw [heff, if_pos hpos]
  · intro hzero
    rw [heff, hzero]
    simp
  · intro e he
    rw [heff] at he
    have he' : (if 0 < (distances (w.filter validSample)).sum then
        dist3 (w.filter validSample).headI (w.filter validSample).getLastI /
          (distances (w.filter validSample)).sum
      else 0) = e := by
      exact Option.some.inj he
    by_cases hpos : 0 < (distances (w.filter validSample)).sum
    · rw [if_pos hpos] at he'
      rw [← he']
      exact div_nonneg (Real.sqrt_nonneg _) (le_of_lt hpos)
    · rw [if_neg hpos] at he'
      rw [← he']

/-- C6 witness: the theorem applied to the concrete ten-row frame. -/
theorem C6_witness :
    (df10.nrows ≠ 0 ∧ df10.wrist = some w10 ∧
      10 ≤ (w10.filter validSample).length) ∧
    ((0 < (distances (w10.filter validSample)).sum →
      (calculateHandMetrics df10).efficiency =
        some (dist3 (w10.filter validSample).headI (w10.filter validSample).getLastI /
          (distances (w10.filter validSample)).sum)) ∧
    ((distances (w10.filter validSample)).sum = 0 →
      (calculateHandMetrics df10).efficiency = some 0) ∧
    ∀ e, (calculateHandMetrics df10).efficiency = some e → 0 ≤ e) :=
  ⟨⟨by decide, rfl, by decide⟩,
    C6_efficiency_defined df10 w10 (by decide) rfl (by decide)⟩

/-! ### Claim C7 -/

/-- Monotone movement along the x axis with no backtracking: consecutive
samples agree on y and z and are non-decreasing in x. -/
def chainX (v : List Vec3) : Prop :=
  List.Chain' (fun p q => p.y = q.y ∧ p.z = q.z ∧ p.x ≤ q.x) v

/-- Monotone movement along the y axis with no backtracking. -/
def chainY (v : List Vec3) : Prop :=
  List.Chain' (fun p q => p.x = q.x ∧ p.z = q.z ∧ p.y ≤ q.y) v

/-- Monotone movement along the z axis with no backtracking. -/
def chainZ (v : List Vec3) : Prop :=
  List.Chain' (fun p q => p.x = q.x ∧ p.y = q.y ∧ p.z ≤ q.z) v

/-- Monotonically decreasing movement along the x axis with no
backtracking: consecutive samples agree on y and z and are non-increasing
in x. -/
def chainXdec (v : List Vec3) : Prop :=
  List.Chain' (fun p q => p.y = q.y ∧ p.z = q.z ∧ q.x ≤ p.x) v

/-- Monotonically decreasing movement along the y axis. -/
def chainYdec (v : List Vec3) : Prop :=
  List.Chain' (fun p q => p.x = q.x ∧ p.z = q.z ∧ q.y ≤ p.y) v

/-- Monotonically decreasing movement along the z axis. -/
def chainZdec (v : List Vec3) : Prop :=
  List.Chain' (fun p q => p.x = q.x ∧ p.y = q.y ∧ q.z ≤ p.z) v

instance (v : List Vec3) : Decidable (chainX v) :=
  inferInstanceAs (Decidable (List.Chain' _ v))

instance (v : List Vec3) : Decidable (chainY v) :=
  inferInstanceAs (Decidable (List.Chain' _ v))

instance (v : List Vec3) : Decidable (chainZ v) :=
  inferInstanceAs (Decidable (List.Chain' _ v))

instance (v : List Vec3) : Decidable (chainXdec v) :=
  inferInstanceAs (Decidable (List.Chain' _ v))

instance (v : List Vec3) : Decidable (chainYdec v) :=
  inferInstanceAs (Decidable (List.Chain' _ v))

instance (v : List Vec3) : Decidable (chainZdec v) :=
  inferInstanceAs (Decidable (List.Chain' _ v))

/-- Distance between two samples differing only along the coordinate `f`
(the other two projections `g`, `h` agree): it is the increment of `f`. -/
theorem dist3_axis (f g h : Vec3 → ℚ)
    (hperm : ∀ p q : Vec3, dist3 p q =
      Real.sqrt (((f q - f p : ℚ) : ℝ) ^ 2 + ((g q - g p : ℚ) : ℝ) ^ 2 +
        ((h q - h p : ℚ) : ℝ) ^ 2))
    (a c : Vec3) (hg : g a = g c) (hh : h a = h c) (hf : f a ≤ f c) :
    dist3 a c = ((f c - f a : ℚ) : ℝ) := by
  rw [hperm]
  have h1 : ((g c - g a : ℚ) : ℝ) = 0 := by rw [hg]; simp
  have h2 : ((h c - h a : ℚ) : ℝ) = 0 := by rw [hh]; simp
  rw [h1, h2]
  have h3 : ((f c - f a : ℚ) : ℝ) ^ 2 + 0 ^ 2 + 0 ^ 2 =
      ((f c - f a : ℚ) : ℝ) ^ 2 := by ring
  rw [h3]
  apply Real.sqrt_sq
  have : (0 : ℚ) ≤ f c - f a := by linarith
  exact_mod_cast this

/-- Telescoping sum of consecutive distances along a monotone single-axis
chain: the path length equals the total increment of the moving
coordinate, and the other two coordinates are constant end to end. -/
theorem chain_axis_telescope (f g h : Vec3 → ℚ)
    (hperm : ∀ p q : Vec3, dist3 p q =
      Real.sqrt (((f q - f p : ℚ) : ℝ) ^ 2 + ((g q - g p : ℚ) : ℝ) ^ 2 +
        ((h q - h p : ℚ) : ℝ) ^ 2)) :
    ∀ (a : Vec3) (l : List Vec3),
      List.Chain' (fun p q => g p = g q ∧ h p = h q ∧ f p ≤ f q) (a :: l) →
      ∃ b, (a :: l).getLast? = some b ∧
        (distances (a :: l)).sum = ((f b - f a : ℚ) : ℝ) ∧
        g b = g a ∧ h b = h a ∧ f a ≤ f b
  | a, [], _ => ⟨a, by simp, by simp [distances], rfl, rfl, le_refl _⟩
  | a, c :: t, hch => by
    rw [List.chain'_cons] at hch
    obtain ⟨hac, htail⟩ := hch
    obtain ⟨b, hb, hsum, hgb, hhb, hfb⟩ := chain_axis_telescope f g h hperm c t htail
    refine ⟨b, ?_, ?_, ?_, ?_, ?_⟩
    · rw [List.getLast?_cons_cons]
      exact hb
    · have hd : distances (a :: c :: t) = dist3 a c :: distances (c :: t) := rfl
      rw [hd, List.sum_cons, hsum, dist3_axis f g h hperm a c hac.1 hac.2.1 hac.2.2]
      push_cast
      ring
    · exact hgb.trans hac.1.symm
    · exact hhb.trans hac.2.1.symm
    · exact le_trans hac.2.2 hfb

/-- Core of the straight-line claim: if the valid sub-sequence moves
monotonically along a single coordinate and its endpoints differ, its path
length is positive and equals the straight-line distance between its first
and last samples. -/
theorem straight_line_core (f g h : Vec3 → ℚ)
    (hperm : ∀ p q : Vec3, dist3 p q =
      Real.sqrt (((f q - f p : ℚ) : ℝ) ^ 2 + ((g q - g p : ℚ) : ℝ) ^ 2 +
        ((h q - h p : ℚ) : ℝ) ^ 2))
    (hcover : ∀ p q : Vec3, f p = f q → g p = g q → h p = h q → p = q)
    (v : List Vec3) (hne : v ≠ [])
    (hchain : List.Chain' (fun p q => g p = g q ∧ h p = h q ∧ f p ≤ f q) v)
    (hmove : v.head? ≠ v.getLast?) :
    0 < (distances v).sum ∧ dist3 v.headI v.getLastI = (distances v).sum := by
  obtain ⟨a, l, rfl⟩ : ∃ a l, v = a :: l := by
    cases v with
    | nil => exact absurd rfl hne
    | cons a l => exact ⟨a, l, rfl⟩
  obtain ⟨b, hb, hsum, hgb, hhb, hfb⟩ := chain_axis_telescope f g h hperm a l hchain
  have hab : a ≠ b := by
    intro hEq
    apply hmove
    rw [List.head?_cons, hb, hEq]
  have hfab : f a ≠ f b := by
    intro hf
    exact hab (hcover a b hf hgb.symm hhb.symm)
  have hflt : f a < f b := lt_of_le_of_ne hfb hfab
  have hpos : (0 : ℝ) < ((f b - f a : ℚ) : ℝ) := by
    have : (0 : ℚ) < f b - f a := by linarith
    exact_mod_cast this
  constructor
  · rw [hsum]
    exact hpos
  · have hI : (a :: l).getLastI = b := by
      rw [List.getLastI_eq_getLast?, hb]
    rw [List.headI_cons, hI, hsum]
    exact dist3_axis f g h hperm a b hgb.symm hhb.symm (le_of_lt hflt)

/-- C7: for a frame whose valid wrist sub-sequence (at least 10 samples)
moves monotonically along a single axis with no backtracking — in either
direction, non-decreasing or non-increasing — and actually moves (first
and last valid positions differ), `efficiency` is exactly 1: the
straight-line distance equals the summed per-step path length. -/
theorem C7_straight_line_efficiency (df : HandDF) (w : List Vec3)
    (h0 : df.nrows ≠ 0) (hw : df.wrist = some w)
    (hv : 10 ≤ (w.filter validSample).length)
    (hax : chainX (w.filter validSample) ∨ chainXdec (w.filter validSample) ∨
      chainY (w.filter validSample) ∨ chainYdec (w.filter validSample) ∨
      chainZ (w.filter validSample) ∨ chainZdec (w.filter validSample))
    (hmove : (w.filter validSample).head? ≠ (w.filter validSample).getLast?) :
    (calculateHandMetrics df).efficiency = some 1 := by
  have heff := efficiency_formula df w h0 hw hv
  have hne : w.filter validSample ≠ [] := by
    intro hnil
    rw [hnil] at hv
    simp at hv
  have hcore : 0 < (distances (w.filter validSample)).sum ∧
      dist3 (w.filter validSample).headI (w.filter validSample).getLastI =
        (distances (w.filter validSample)).sum := by
    rcases hax with hx | hx | hy | hy | hz | hz
    · refine straight_line_core (fun p => p.x) (fun p => p.y) (fun p => p.z)
        ?_ ?_ _ hne hx hmove
      · intro p q
        rfl
      · intro p q h1 h2 h3
        cases p
        cases q
        simp_all
    · have hx' : List.Chain'
          (fun p q : Vec3 => p.y = q.y ∧ p.z = q.z ∧ -p.x ≤ -q.x)
          (w.filter validSample) :=
        hx.imp (fun _ _ hab => ⟨hab.1, hab.2.1, neg_le_neg hab.2.2⟩)
      refine straight_line_core (fun p => -p.x) (fun p => p.y) (fun p => p.z)
        ?_ ?_ _ hne hx' hmove
      · intro p q
        unfold dist3
        congr 1
        push_cast
        ring
      · intro p q h1 h2 h3
        have h1' : p.x = q.x := by simpa using h1
        cases p
        cases q
        simp_all
    · refine straight_line_core (fun p => p.y) (fun p => p.x) (fun p => p.z)
        ?_ ?_ _ hne hy hmove
      · intro p q
        unfold dist3
        congr 1
        push_cast
        ring
      · intro p q h1 h2 h3
        cases p
        cases q
        simp_all
    · have hy' : List.Chain'
          (fun p q : Vec3 => p.x = q.x ∧ p.z = q.z ∧ -p.y ≤ -q.y)
          (w.filter validSample) :=
        hy.imp (fun _ _ hab => ⟨hab.1, hab.2.1, neg_le_neg hab.2.2⟩)
      refine straight_line_core (fun p => -p.y) (fun p => p.x) (fun p => p.z)
        ?_ ?_ _ hne hy' hmove
      · intro p q
        unfold dist3
        congr 1
        push_cast
        ring
      · intro p q h1 h2 h3
        have h1' : p.y = q.y := by simpa using h1
        cases p
        cases q
        simp_all
    · refine straight_line_core (fun p => p.z) (fun p => p.x) (fun p => p.y)
        ?_ ?_ _ hne hz hmove
      · intro p q
        unfold dist3
        congr 1
        push_cast
        ring
      · intro p q h1 h2 h3
        cases p
        cases q
        simp_all
    · have hz' : List.Chain'
          (fun p q : Vec3 => p.x = q.x ∧ p.y = q.y ∧ -p.z ≤ -q.z)
          (w.filter validSample) :=
        hz.imp (fun _ _ hab => ⟨hab.1, hab.2.1, neg_le_neg hab.2.2⟩)
      refine straight_line_core (fun p => -p.z) (fun p => p.x) (fun p => p.y)
        ?_ ?_ _ hne hz' hmove
      · intro p q
        unfold dist3
        congr 1
        push_cast
        ring
      · intro p q h1 h2 h3
        have h1' : p.z = q.z := by simpa using h1
        cases p
        cases q
        simp_all
  rw [heff, if_pos hcore.1, hcore.2]
  rw [div_self (ne_of_gt hcore.1)]

/-- The concrete straight-line track is monotone along x. -/
theorem w10_chainX : chainX (w10.filter validSample) := by
  have hf : w10.filter validSample = w10 := rfl
  show List.Chain' _ _
  rw [hf]
  simp [w10, List.chain'_cons, List.chain'_singleton]
  norm_num

/-- C7 witness: the straight-line frame `df10` (x goes 1..10, y and z
constant) has efficiency exactly 1. -/
theorem C7_witness :
    (df10.nrows ≠ 0 ∧ 10 ≤ (w10.filter validSample).length ∧
      chainX (w10.filter validSample) ∧
      (w10.filter validSample).head? ≠ (w10.filter validSample).getLast?) ∧
    (calculateHandMetrics df10).efficiency = some 1 :=
  ⟨⟨by decide, by decide, w10_chainX, by decide⟩,
    C7_straight_line_efficiency df10 w10 (by decide) rfl (by decide)
      (Or.inl w10_chainX) (by decide)⟩

/-! ### Claim C8 -/

/-- Length of the windowed downsampling output: `min` of the requested
frame count and the signal length — the trailing `[:num_frames]` truncates,
but nothing ever pads a short signal. -/
theorem tremorPerFrame_length {α : Type} [LinearOrderedField α] (ts : List α)
    (F : ℕ) (hF : 1 ≤ F) :
    (tremorPerFrame ts F).length = min F ts.length := by
  unfold tremorPerFrame
  simp only [List.length_take, List.length_map, List.length_range]
  by_cases hle : F ≤ ts.length
  · have hs1 : 1 ≤ ts.length / F := (Nat.one_le_div_iff (by omega)).mpr hle
    have hs : max 1 (ts.length / F) = ts.length / F := max_eq_right hs1
    rw [hs]
    have hmul : ts.length / F * F ≤ ts.length := Nat.div_mul_le_self _ _
    have hpos : 0 < ts.length / F := hs1
    have hcount : F ≤ (ts.length + ts.length / F - 1) / (ts.length / F) := by
      rw [Nat.le_div_iff_mul_le hpos]
      calc F * (ts.length / F) = ts.length / F * F := Nat.mul_comm _ _
        _ ≤ ts.length := hmul
        _ ≤ ts.length + ts.length / F - 1 := by omega
    rw [min_eq_left hcount, min_eq_left hle]
  · have hL : ts.length / F = 0 := Nat.div_eq_of_lt (by omega)
    rw [hL]
    simp

/-- A 101-sample constant IMU stream. -/
def imu101 : List IMUSample := List.replicate 101 ⟨⟨0, 0, 0⟩, ⟨0, 0, 0⟩⟩

/-- C8 counterexample: with 101 IMU samples (so the tremor branch runs)
and a frame count of 200, `tremor_per_frame` has 101 entries, not
`num_frames = 200` — short signals are never padded. -/
theorem C8_counterexample :
    ((calculateMotionMetrics imu101 200).tremor_per_frame).length = 101 ∧
    ((calculateMotionMetrics imu101 200).tremor_per_frame).length ≠ 200 := by
  have h : (calculateMotionMetrics imu101 200).tremor_per_frame =
      tremorPerFrame (butterHP01 (imu101.map accelMagnitude)) 200 := by
    simp [calculateMotionMetrics, imu101]
  have hlen : (butterHP01 (imu101.map accelMagnitude)).length = 101 := by
    unfold butterHP01
    rw [sosSection_length, sosSection_length, List.length_map]
    simp [imu101]
  rw [h, tremorPerFrame_length _ _ (by omega), hlen]
  omega

/-- C8 (amended): whenever the tremor branch runs (more than 100 IMU
samples) and at least one frame is requested, `tremor_per_frame` has
exactly `min num_frames (signal length)` entries: the output is truncated
to `num_frames` when the signal is long enough, and is the shorter signal
length otherwise (no padding). -/
theorem C8_tremor_per_frame_length (imu : List IMUSample) (F : ℕ)
    (hF : 1 ≤ F) (h100 : 100 < imu.length) :
    ((calculateMotionMetrics imu F).tremor_per_frame).length =
      min F imu.length := by
  have hne : imu.isEmpty = false := by
    cases imu with
    | nil => simp at h100
    | cons a l => simp
  have hcond : 100 < (imu.map accelMagnitude).length := by
    rw [List.length_map]
    exact h100
  have h : (calculateMotionMetrics imu F).tremor_per_frame =
      tremorPerFrame (butterHP01 (imu.map accelMagnitude)) F := by
    simp [calculateMotionMetrics, hne, hcond]
    exact fun hcontra => absurd hcontra (by omega)
  have hlen : (butterHP01 (imu.map accelMagnitude)).length = imu.length := by
    unfold butterHP01
    rw [sosSection_length, sosSection_length, List.length_map]
  rw [h, tremorPerFrame_length _ _ hF, hlen]

/-- C8 witness: the amended theorem at the concrete 101-sample stream with
5 requested frames. -/
theorem C8_witness :
    (1 ≤ 5 ∧ 100 < imu101.length) ∧
    ((calculateMotionMetrics imu101 5).tremor_per_frame).length =
      min 5 imu101.length :=
  ⟨⟨by omega, by simp [imu101]⟩,
    C8_tremor_per_frame_length imu101 5 (by omega) (by simp [imu101])⟩

/-! ### Claim C9 -/

/-- C9: a `hand_tracking` mapping whose `path_length_m` exceeds 3.0 always
produces a HIGH "Path Length" recommendation, and the returned list is
sorted by the fixed priority order, so every HIGH entry precedes every
MEDIUM entry and every MEDIUM entry precedes every LOW entry. -/
theorem C9_recommendations (m : DashMetrics) :
    (∀ ht p, m.hand_tracking = some ht → ht.path_length_m = some p → 3 < p →
      (⟨Priority.HIGH, "Path Length"⟩ : Recommendation) ∈
        generateRecommendations m) ∧
    List.Pairwise
      (fun a b => priorityOrder a.priority ≤ priorityOrder b.priority)
      (generateRecommendations m) := by
  constructor
  · intro ht p hht hp h3
    have hne : dashHandNonempty ht = true := by
      unfold dashHandNonempty
      rw [hp]
      simp
    have hgetD : ht.path_length_m.getD 0 = p := by
      rw [hp]
      rfl
    have hmem : (⟨Priority.HIGH, "Path Length"⟩ : Recommendation) ∈
        handRecs m.hand_tracking := by
      rw [hht]
      simp [handRecs, hne, hgetD, h3]
    unfold generateRecommendations
    refine (List.perm_insertionSort recLE _).mem_iff.mpr ?_
    simp only [List.mem_append]
    exact Or.inl (Or.inl hmem)
  · exact List.sorted_insertionSort recLE _

/-- A metrics mapping whose hand tracking walked 4 m. -/
def m9 : DashMetrics := ⟨some ⟨some 4, none, none, none⟩, none, none⟩

/-- C9 witness: the theorem at the concrete mapping with
`path_length_m = 4 > 3`. -/
theorem C9_witness :
    (⟨Priority.HIGH, "Path Length"⟩ : Recommendation) ∈
      generateRecommendations m9 ∧
    List.Pairwise
      (fun a b => priorityOrder a.priority ≤ priorityOrder b.priority)
      (generateRecommendations m9) :=
  ⟨(C9_recommendations m9).1 ⟨some 4, none, none, none⟩ 4 rfl rfl
      (by norm_num),
    (C9_recommendations m9).2⟩

/-! ### Claim C10 -/

/-- C10: a non-empty hand frame without wrist columns but with timestamps
still gets `task_duration_s` (and `avg_confidence` when the confidence
column exists), while every position-derived key is absent. -/
theorem C10_no_wrist_columns (df : HandDF) (ts : List ℚ) (a b : ℚ)
    (h0 : df.nrows ≠ 0) (hw : df.wrist = none) (hts : df.timestamps = some ts)
    (hha : ts.head? = some a) (hhb : ts.getLast? = some b) :
    (calculateHandMetrics df).task_duration_s =
      some (((b - a : ℚ) : ℝ) / 1000000) ∧
    (calculateHandMetrics df).path_length_m = none ∧
    (calculateHandMetrics df).avg_speed_m_s = none ∧
    (calculateHandMetrics df).velocity_variance = none ∧
    (calculateHandMetrics df).smoothness_score = none ∧
    (calculateHandMetrics df).hand_tremor = none ∧
    (calculateHandMetrics df).workspace_volume_m3 = none ∧
    (calculateHandMetrics df).efficiency = none ∧
    (∀ c, df.confidence = some c → c ≠ [] →
      (calculateHandMetrics df).avg_confidence = some ((qmean c : ℚ) : ℝ)) := by
  unfold calculateHandMetrics
  rcases df with ⟨n, wr, tsf, cf⟩
  cases hw
  cases hts
  simp only [if_neg h0]
  have hdur : taskDuration (some ts) = some (((b - a : ℚ) : ℝ) / 1000000) := by
    simp [taskDuration, hha, hhb]
  refine ⟨hdur, rfl, rfl, rfl, rfl, rfl, rfl, rfl, ?_⟩
  intro c hc hcne
  cases hc
  have hcE : c.isEmpty = false := by
    cases c with
    | nil => exact absurd rfl hcne
    | cons x l => simp
  simp [avgConfidence, hcE]

/-- A three-row frame with timestamps and confidence but no wrist data. -/
def df3 : HandDF := ⟨3, none, some [0, 1000000, 3000000], some [1, 1, 1]⟩

/-- C10 witness: the theorem at the concrete wristless frame. -/
theorem C10_witness :
    (calculateHandMetrics df3).task_duration_s =
      some (((3000000 - 0 : ℚ) : ℝ) / 1000000) ∧
    (calculateHandMetrics df3).path_length_m = none ∧
    (calculateHandMetrics df3).avg_speed_m_s = none ∧
    (calculateHandMetrics df3).velocity_variance = none ∧
    (calculateHandMetrics df3).smoothness_score = none ∧
    (calculateHandMetrics df3).hand_tremor = none ∧
    (calculateHandMetrics df3).workspace_volume_m3 = none ∧
    (calculateHandMetrics df3).efficiency = none ∧
    (∀ c, df3.confidence = some c → c ≠ [] →
      (calculateHandMetrics df3).avg_confidence = some ((qmean c : ℚ) : ℝ)) :=
  C10_no_wrist_columns df3 [0, 1000000, 3000000] 0 3000000
    (by decide) rfl rfl rfl (by decide)

end AriaMetrics
